import Mathlib

/-!
Shallow embedding of `towncrier/check.py` (the `towncrier check` subcommand)
and proofs about it.

The program is a single linear CLI check: it resolves a comparison branch,
collects the changed-file set from a `git diff --name-only BRANCH...`
invocation, short-circuits when the aggregate news file itself changed, and
otherwise intersects the changed files with the fragment paths returned by
the external `find_fragments` collaborator, exiting 0 or 1 accordingly.

String and path helpers from the Python standard library that the program
relies on (`str.split`, `str.strip`, `str.splitlines`, `posixpath.normpath`,
`posixpath.join`, `posixpath.abspath`) are embedded structurally over
`List Char` so that every definition evaluates by kernel reduction.
External collaborators (`load_config_from_options`, `find_fragments`, the
`git` binary) are inputs of the model, per their interface contracts.
-/

namespace Towncrier

/-- Split a list of characters at every occurrence of `sep`, keeping empty
chunks, as Python `str.split(sep)` does for a one-character separator. -/
def splitOnChar (sep : Char) : List Char → List (List Char)
  | [] => [[]]
  | c :: cs =>
      let r := splitOnChar sep cs
      if c = sep then [] :: r
      else
        match r with
        | [] => [[c]]
        | h :: t => (c :: h) :: t

/-- Python `s.split(sep)` for a one-character separator. -/
def pySplit (sep : Char) (s : String) : List String :=
  (splitOnChar sep s.data).map String.mk

/-- Python `s.strip()`: drop leading and trailing whitespace. -/
def strip (s : String) : String :=
  String.mk (((s.data.dropWhile Char.isWhitespace).reverse.dropWhile
    Char.isWhitespace).reverse)

/-- Python `s.splitlines()` restricted to LF-separated text (the only line
separator appearing in the decoded `git` output the program consumes):
split at every newline and drop the chunk after a trailing newline. -/
def splitlines (s : String) : List String :=
  let parts := pySplit (Char.ofNat 10) s
  if parts.getLast? = some "" then parts.dropLast else parts

/-- Python `s.startswith(p)`. -/
def startswith (s p : String) : Bool :=
  p.data.isPrefixOf s.data

/-- Python `s.endswith(p)`. -/
def endswith (s p : String) : Bool :=
  p.data.isSuffixOf s.data

/-- Python `sep.join(parts)`. -/
def joinSep (sep : String) : List String → String
  | [] => ""
  | [x] => x
  | x :: y :: xs => x ++ sep ++ joinSep sep (y :: xs)

/-- Python `s * n` for a string and a count. -/
def repeatStr (s : String) : Nat → String
  | 0 => ""
  | n + 1 => s ++ repeatStr s n

/-- One iteration of the component loop of `posixpath.normpath`: skip empty
and `.` components, append a regular component (or a `..` that cannot be
cancelled), and otherwise let `..` pop the previous component. -/
def normStep (initialSlashes : Nat) (newComps : List String) (comp : String) :
    List String :=
  if comp = "" ∨ comp = "." then newComps
  else if comp ≠ ".." ∨ (initialSlashes = 0 ∧ newComps = []) ∨
      (newComps ≠ [] ∧ newComps.getLast? = some "..") then
    newComps ++ [comp]
  else if newComps ≠ [] then newComps.dropLast
  else newComps

/-- The component loop of `posixpath.normpath` over a split path. -/
def normParts (initialSlashes : Nat) (comps : List String) : List String :=
  comps.foldl (normStep initialSlashes) []

/-- Number of initial slashes `posixpath.normpath` preserves: two slashes
are kept verbatim (POSIX), three or more collapse to one. -/
def initialSlashCount (path : String) : Nat :=
  if startswith path "/" then
    if startswith path "//" ∧ ¬ startswith path "///" then 2 else 1
  else 0

/-- Python `posixpath.normpath` (the `os.path.normpath` the program runs
under on POSIX): collapse redundant separators and `.` components, cancel
`name/..` pairs, preserve a double initial slash. -/
def normpath (path : String) : String :=
  if path = "" then "."
  else
    let slashes := initialSlashCount path
    let comps := normParts slashes (pySplit '/' path)
    let out := repeatStr "/" slashes ++ joinSep "/" comps
    if out = "" then "." else out

/-- Python `posixpath.join` for two arguments. -/
def os_path_join (a b : String) : String :=
  if startswith b "/" then b
  else if a = "" ∨ endswith a "/" then a ++ b
  else a ++ "/" ++ b

/-- Python `posixpath.abspath` with an explicit current working directory:
make the path absolute against `cwd` and normalize it. -/
def os_path_abspath (cwd path : String) : String :=
  if startswith path "/" then normpath path
  else normpath (os_path_join cwd path)

/-- Result of `getattr(sys.stdout, "encoding", "utf8")`.  The outer `Option`
distinguishes a missing `encoding` attribute (`none`: `getattr` yields the
default `"utf8"`) from a present attribute (`some v`), whose value `v` may
itself be Python `None` (`some none`) and is then returned as is: `getattr`
only substitutes its default when the attribute is absent. -/
def getattrEncoding (stdoutEncoding : Option (Option String)) : Option String :=
  match stdoutEncoding with
  | none => some "utf8"
  | some v => v

/-- Python `bytes.decode(encoding)` abstracted over the codec: with a string
encoding the decoded text is produced (the model carries decoded text
already); with `None` as encoding the call raises `TypeError`. -/
def bytesDecode (encoding : Option String) (decoded : String) :
    Except String String :=
  match encoding with
  | some _ => .ok decoded
  | none => .error "TypeError: decode argument must be str, not None"

/-- Function `_get_default_compare_branch` of `check.py`, together with its
side effect: the second component records whether the `DeprecationWarning`
for `origin/master` was emitted. -/
def _get_default_compare_branch (branches : List String) :
    Option String × Bool :=
  if "origin/main" ∈ branches then (some "origin/main", false)
  else if "origin/master" ∈ branches then (some "origin/master", true)
  else (none, false)

/-- Line-splitting and per-line stripping of `_get_remote_branches`, applied
to the decoded output of `git branch -r`. -/
def remoteBranchesOf (decodedOutput : String) : List String :=
  (splitlines decodedOutput).map strip

/-- Configuration mapping returned by the external `load_config_from_options`
collaborator, restricted to the keys `check.py` reads.  `directory` is
`none` when the key is absent (`config.get("directory")` yields `None`);
`sections` and `types` are opaque identifier lists passed through to
`find_fragments`. -/
structure Config where
  filename : String
  directory : Option String
  package_dir : String
  package : String
  sections : List String
  types : List String
deriving DecidableEq

/-- Truthiness of `config.get("directory")`: present and non-empty. -/
def configDirectoryTruthy (config : Config) : Bool :=
  match config.directory with
  | some d => d ≠ ""
  | none => false

/-- External world of one run: the two `git` invocations (already decoded;
`Except.error` is a `CalledProcessError` carrying the captured combined
output) and the `find_fragments` collaborator, modelled per its contract as
(search base, sections, fragment subdirectory or none, types) to the second
element of its result, the list of fragment file paths. -/
structure Env where
  branchListing : Except String String
  diff : String → Except String String
  find_fragments : String → List String → Option String → List String →
    List String

/-- Program step that can raise an uncaught `CalledProcessError`. -/
inductive Step where
  | branchListing
  | diffStep
deriving DecidableEq

/-- Terminal echo-and-exit path of `__main`. -/
inductive Terminal where
  | noDefaultBranch
  | noDiffs
  | skipped
  | notFound
  | found
deriving DecidableEq

/-- How a run terminates: a `sys.exit(code)` on one terminal path, or an
exception propagating out of `__main` from the given step, carrying the
captured process output that was echoed or attached. -/
inductive Outcome where
  | exited (code : Nat) (terminal : Terminal)
  | raisedFrom (step : Step) (output : String)
deriving DecidableEq

/-- Observable trace of one run of `__main`: its outcome plus which external
calls were made with which arguments, the computed changed-file and
fragment sets, and the list of fragments reported on the `Found` path. -/
structure RunResult where
  outcome : Outcome
  branchListingInvoked : Bool
  diffArgs : Option (List String)
  fragmentsArgs : Option (String × List String × Option String × List String)
  files : List String
  fragments : List String
  reported : List String
deriving DecidableEq

/-- Changed-file set of `__main` (line 110): each line of the stripped diff
output joined onto the base directory and normalized.  Python builds a
`set`; the model keeps a list and states every property up to membership. -/
def changedFiles (base_directory files_changed : String) : List String :=
  (splitlines (strip files_changed)).map
    (fun path => normpath (os_path_join base_directory path))

/-- Normalized path of the configured aggregate news file (line 121). -/
def newsFile (base_directory : String) (config : Config) : String :=
  normpath (os_path_join base_directory config.filename)

/-- Fragment search base and subdirectory (lines 126-133): an explicit
truthy `directory` key is used directly with no subdirectory; otherwise
`package_dir/package` is searched under `newsfragments`. -/
def fragmentSearch (cwd base_directory : String) (config : Config) :
    String × Option String :=
  if configDirectoryTruthy config then
    (os_path_abspath cwd (config.directory.getD ""), none)
  else
    (os_path_abspath cwd
      (os_path_join (os_path_join base_directory config.package_dir)
        config.package),
     some "newsfragments")

/-- Normalized fragment path set (lines 135-143): `find_fragments` output
mapped through `normpath`. -/
def fragmentPaths (cwd base_directory : String) (config : Config)
    (env : Env) : List String :=
  let s := fragmentSearch cwd base_directory config
  (env.find_fragments s.1 config.sections s.2 config.types).map normpath

/-- Lines 91-153 of `__main`, from the diff collection on: everything a run
does once a comparison branch is fixed.  `branchListingInvoked` records
whether the caller already listed remote branches. -/
def runAfterBranch (comparewith base_directory cwd : String)
    (config : Config) (env : Env) (branchListingInvoked : Bool) : RunResult :=
  let diffArgs := ["git", "diff", "--name-only", comparewith ++ "..."]
  match env.diff comparewith with
  | .error out =>
      { outcome := .raisedFrom .diffStep out,
        branchListingInvoked := branchListingInvoked,
        diffArgs := some diffArgs, fragmentsArgs := none,
        files := [], fragments := [], reported := [] }
  | .ok raw =>
      let files_changed := strip raw
      if files_changed = "" then
        { outcome := .exited 0 .noDiffs,
          branchListingInvoked := branchListingInvoked,
          diffArgs := some diffArgs, fragmentsArgs := none,
          files := [], fragments := [], reported := [] }
      else
        let files := changedFiles base_directory files_changed
        let news_file := newsFile base_directory config
        if news_file ∈ files then
          { outcome := .exited 0 .skipped,
            branchListingInvoked := branchListingInvoked,
            diffArgs := some diffArgs, fragmentsArgs := none,
            files := files, fragments := [], reported := [] }
        else
          let s := fragmentSearch cwd base_directory config
          let fragments := fragmentPaths cwd base_directory config env
          let fragments_in_branch :=
            fragments.filter (fun p => decide (p ∈ files))
          if fragments_in_branch = [] then
            { outcome := .exited 1 .notFound,
              branchListingInvoked := branchListingInvoked,
              diffArgs := some diffArgs,
              fragmentsArgs := some (s.1, config.sections, s.2, config.types),
              files := files, fragments := fragments, reported := [] }
          else
            { outcome := .exited 0 .found,
              branchListingInvoked := branchListingInvoked,
              diffArgs := some diffArgs,
              fragmentsArgs := some (s.1, config.sections, s.2, config.types),
              files := files, fragments := fragments,
              reported := fragments_in_branch }

/-- Function `__main` of `check.py`, as a function of the CLI
`--compare-with` value, the base directory and configuration delivered by
`load_config_from_options`, the process working directory (consumed by
`os.path.abspath`), and the external world.  A `None` comparison branch is
resolved through `git branch -r` and `_get_default_compare_branch`; note
that this listing runs outside any `try`, so its `CalledProcessError`
propagates uncaught. -/
def main_check (comparewith : Option String) (base_directory cwd : String)
    (config : Config) (env : Env) : RunResult :=
  match comparewith with
  | some b => runAfterBranch b base_directory cwd config env false
  | none =>
      match env.branchListing with
      | .error out =>
          { outcome := .raisedFrom .branchListing out,
            branchListingInvoked := true, diffArgs := none,
            fragmentsArgs := none, files := [], fragments := [],
            reported := [] }
      | .ok decoded =>
          match (_get_default_compare_branch (remoteBranchesOf decoded)).1 with
          | none =>
              { outcome := .exited 1 .noDefaultBranch,
                branchListingInvoked := true, diffArgs := none,
                fragmentsArgs := none, files := [], fragments := [],
                reported := [] }
          | some b => runAfterBranch b base_directory cwd config env true

/-- Demonstration configuration used to instantiate theorems on concrete
inputs: default fragment location `src/pkg/newsfragments`. -/
def cfgDemo : Config :=
  { filename := "NEWS.rst", directory := none, package_dir := "src",
    package := "pkg", sections := [""], types := ["feature"] }

/-- Demonstration collaborator for `find_fragments`: one fragment file under
the requested search base and subdirectory. -/
def findFragmentsDemo (base : String) (_sections : List String)
    (fragmentDir : Option String) (_types : List String) : List String :=
  match fragmentDir with
  | some d => [base ++ "/" ++ d ++ "/123.feature"]
  | none => [base ++ "/123.feature"]

/-- Demonstration world where a fragment is present on the branch. -/
def envFound : Env :=
  { branchListing := .ok "  origin/main\n",
    diff := fun _ => .ok "src/pkg/newsfragments/123.feature\nsrc/code.py\n",
    find_fragments := findFragmentsDemo }

/-- Demonstration world where the diff is whitespace only. -/
def envEmptyDiff : Env :=
  { envFound with diff := fun _ => .ok "  \n" }

/-- Demonstration world where the diff invocation fails. -/
def envDiffFail : Env :=
  { envFound with diff := fun _ => .error "fatal: bad revision" }

/-- Demonstration world where the news file itself changed. -/
def envNewsChanged : Env :=
  { envFound with diff := fun _ => .ok "NEWS.rst\nsrc/code.py\n" }

/-- Demonstration world where only unrelated files changed. -/
def envNoFragment : Env :=
  { envFound with diff := fun _ => .ok "src/code.py\n" }

/-- Demonstration world where listing remote branches fails. -/
def envBranchFail : Env :=
  { envFound with branchListing := .error "fatal: not a git repository" }

/-! Theorems.  Each claim of the specification gets one theorem, with a
witness instantiating it on concrete inputs when it carries hypotheses. -/

/-- C2: `_get_default_compare_branch` returns `origin/main` whenever that
exact name is in the branch list, regardless of other entries or their
order; when it is absent but `origin/master` is present it returns
`origin/master` together with an emitted (non-fatal) deprecation warning;
when neither is present it returns `None` and warns nothing. -/
theorem check_default_branch_priority (branches : List String) :
    ("origin/main" ∈ branches →
      _get_default_compare_branch branches = (some "origin/main", false)) ∧
    ("origin/main" ∉ branches → "origin/master" ∈ branches →
      _get_default_compare_branch branches = (some "origin/master", true)) ∧
    ("origin/main" ∉ branches → "origin/master" ∉ branches →
      _get_default_compare_branch branches = (none, false)) := by
  refine ⟨fun h => ?_, fun h1 h2 => ?_, fun h1 h2 => ?_⟩ <;>
    simp [_get_default_compare_branch, *]

/-- Witness for C2: the three cases at concrete branch lists. -/
theorem check_default_branch_priority_witness :
    _get_default_compare_branch ["origin/dev", "origin/main"] =
      (some "origin/main", false) ∧
    _get_default_compare_branch ["origin/master", "origin/dev"] =
      (some "origin/master", true) ∧
    _get_default_compare_branch ["origin/dev"] = (none, false) :=
  ⟨(check_default_branch_priority ["origin/dev", "origin/main"]).1 (by decide),
   (check_default_branch_priority ["origin/master", "origin/dev"]).2.1
     (by decide) (by decide),
   (check_default_branch_priority ["origin/dev"]).2.2 (by decide) (by decide)⟩

/-- C3 (code bug): `getattr(sys.stdout, "encoding", "utf8")` substitutes
`utf8` only when the `encoding` attribute is missing.  When the attribute
is present but set to `None` — the piped/CI case the adjacent code comment
claims to handle — the expression evaluates to `None`, and passing `None`
to `bytes.decode` raises `TypeError` instead of decoding as UTF-8. -/
theorem check_encoding_fallback_bug :
    getattrEncoding none = some "utf8" ∧
    getattrEncoding (some none) = none ∧
    bytesDecode (getattrEncoding (some none)) "origin/main" =
      .error "TypeError: decode argument must be str, not None" := by
  exact ⟨rfl, rfl, rfl⟩

/-- C6: when the diff-producing process exits non-zero, the run carries the
captured combined output out of the program by re-raising the original
failure from the diff step; nothing further happens — no fragment
discovery, no file set, no reported fragments. -/
theorem check_diff_error_reraised (b base_directory cwd : String)
    (config : Config) (env : Env) (bli : Bool) (out : String)
    (h : env.diff b = .error out) :
    runAfterBranch b base_directory cwd config env bli =
      { outcome := .raisedFrom .diffStep out, branchListingInvoked := bli,
        diffArgs := some ["git", "diff", "--name-only", b ++ "..."],
        fragmentsArgs := none, files := [], fragments := [],
        reported := [] } := by
  unfold runAfterBranch
  rw [h]

/-- Witness for C6: a failing diff at concrete inputs. -/
theorem check_diff_error_reraised_witness :
    runAfterBranch "origin/main" "/repo" "/repo" cfgDemo envDiffFail false =
      { outcome := .raisedFrom .diffStep "fatal: bad revision",
        branchListingInvoked := false,
        diffArgs := some ["git", "diff", "--name-only", "origin/main..."],
        fragmentsArgs := none, files := [], fragments := [],
        reported := [] } :=
  check_diff_error_reraised "origin/main" "/repo" "/repo" cfgDemo envDiffFail
    false "fatal: bad revision" rfl

/-- C5: when the diff output is empty after stripping, the run exits 0 on
the no-diffs terminal path and fragment discovery is never invoked. -/
theorem check_empty_diff_no_discovery (b base_directory cwd : String)
    (config : Config) (env : Env) (bli : Bool) (raw : String)
    (hok : env.diff b = .ok raw) (hempty : strip raw = "") :
    runAfterBranch b base_directory cwd config env bli =
      { outcome := .exited 0 .noDiffs, branchListingInvoked := bli,
        diffArgs := some ["git", "diff", "--name-only", b ++ "..."],
        fragmentsArgs := none, files := [], fragments := [],
        reported := [] } := by
  unfold runAfterBranch
  rw [hok]
  simp [hempty]

/-- Witness for C5: a whitespace-only diff at concrete inputs. -/
theorem check_empty_diff_no_discovery_witness :
    runAfterBranch "origin/main" "/repo" "/repo" cfgDemo envEmptyDiff false =
      { outcome := .exited 0 .noDiffs, branchListingInvoked := false,
        diffArgs := some ["git", "diff", "--name-only", "origin/main..."],
        fragmentsArgs := none, files := [], fragments := [],
        reported := [] } :=
  check_empty_diff_no_discovery "origin/main" "/repo" "/repo" cfgDemo
    envEmptyDiff false "  \n" rfl (by decide)

/-- C4: when the changed-file set contains the normalized path of the
configured aggregate news file, the run exits 0 on the skipped terminal
path, regardless of which other files changed, and fragment discovery is
not invoked: the news-file shortcut short-circuits before fragment
directory resolution. -/
theorem check_news_file_shortcut (b base_directory cwd : String)
    (config : Config) (env : Env) (bli : Bool) (raw : String)
    (hok : env.diff b = .ok raw) (hne : strip raw ≠ "")
    (hnews : newsFile base_directory config ∈
      changedFiles base_directory (strip raw)) :
    (runAfterBranch b base_directory cwd config env bli).outcome =
      .exited 0 .skipped ∧
    (runAfterBranch b base_directory cwd config env bli).fragmentsArgs =
      none := by
  unfold runAfterBranch
  rw [hok]
  simp [hne, hnews]

/-- Witness for C4: the news file `NEWS.rst` among the changed files. -/
theorem check_news_file_shortcut_witness :
    (runAfterBranch "origin/main" "/repo" "/repo" cfgDemo envNewsChanged
        false).outcome = .exited 0 .skipped ∧
    (runAfterBranch "origin/main" "/repo" "/repo" cfgDemo envNewsChanged
        false).fragmentsArgs = none :=
  check_news_file_shortcut "origin/main" "/repo" "/repo" cfgDemo
    envNewsChanged false "NEWS.rst\nsrc/code.py\n" rfl (by decide) (by decide)

/-- C1: a run that reaches the intersection step (diff collected, non-empty,
news file not among the changed files) is determined by the intersection
of the normalized fragment paths with the changed-file set: empty
intersection exits 1 on the not-found path reporting nothing, non-empty
intersection exits 0 on the found path and the reported list contains
exactly the paths lying in both sets. -/
theorem check_intersection_determines_result (b base_directory cwd : String)
    (config : Config) (env : Env) (bli : Bool) (raw : String)
    (hok : env.diff b = .ok raw) (hne : strip raw ≠ "")
    (hnews : newsFile base_directory config ∉
      changedFiles base_directory (strip raw)) :
    ((fragmentPaths cwd base_directory config env).filter
        (fun p => decide (p ∈ changedFiles base_directory (strip raw))) = [] →
      (runAfterBranch b base_directory cwd config env bli).outcome =
        .exited 1 .notFound ∧
      (runAfterBranch b base_directory cwd config env bli).reported = []) ∧
    ((fragmentPaths cwd base_directory config env).filter
        (fun p => decide (p ∈ changedFiles base_directory (strip raw))) ≠ [] →
      (runAfterBranch b base_directory cwd config env bli).outcome =
        .exited 0 .found ∧
      ∀ x, x ∈ (runAfterBranch b base_directory cwd config env bli).reported ↔
        (x ∈ fragmentPaths cwd base_directory config env ∧
         x ∈ changedFiles base_directory (strip raw))) := by
  unfold runAfterBranch
  rw [hok]
  constructor
  · intro hinter
    simp [hne, hnews, hinter]
  · intro hinter
    simp only [hne, hnews, hinter, if_neg, if_false]
    simp [hne, hnews, hinter, List.mem_filter]

/-- Witness for C1: both the found case (a fragment among the changed
files) and the not-found case (only unrelated changes) at concrete
inputs. -/
theorem check_intersection_determines_result_witness :
    ((runAfterBranch "origin/main" "/repo" "/repo" cfgDemo envFound
        false).outcome = .exited 0 .found ∧
      "/repo/src/pkg/newsfragments/123.feature" ∈
        (runAfterBranch "origin/main" "/repo" "/repo" cfgDemo envFound
          false).reported) ∧
    (runAfterBranch "origin/main" "/repo" "/repo" cfgDemo envNoFragment
        false).outcome = .exited 1 .notFound := by
  constructor
  · have h := (check_intersection_determines_result "origin/main" "/repo"
      "/repo" cfgDemo envFound false
      "src/pkg/newsfragments/123.feature\nsrc/code.py\n" rfl (by decide)
      (by decide)).2 (by decide)
    exact ⟨h.1, (h.2 "/repo/src/pkg/newsfragments/123.feature").2 (by decide)⟩
  · exact ((check_intersection_determines_result "origin/main" "/repo"
      "/repo" cfgDemo envNoFragment false "src/code.py\n" rfl (by decide)
      (by decide)).1 (by decide)).1

/-- Helper: every branch of the post-resolution code preserves the
branch-listing flag and records the verbatim three-dot diff invocation. -/
theorem runAfterBranch_invocations (b base_directory cwd : String)
    (config : Config) (env : Env) (bli : Bool) :
    (runAfterBranch b base_directory cwd config env bli).branchListingInvoked
      = bli ∧
    (runAfterBranch b base_directory cwd config env bli).diffArgs =
      some ["git", "diff", "--name-only", b ++ "..."] := by
  unfold runAfterBranch
  cases env.diff b <;> dsimp only <;> (repeat' split) <;> simp

/-- Helper: the post-resolution code terminates on exactly one of five
shapes: a re-raised diff failure or one of the four exit paths. -/
theorem runAfterBranch_outcome (b base_directory cwd : String)
    (config : Config) (env : Env) (bli : Bool) :
    (∃ out, (runAfterBranch b base_directory cwd config env bli).outcome =
      .raisedFrom .diffStep out) ∨
    (runAfterBranch b base_directory cwd config env bli).outcome =
      .exited 0 .noDiffs ∨
    (runAfterBranch b base_directory cwd config env bli).outcome =
      .exited 0 .skipped ∨
    (runAfterBranch b base_directory cwd config env bli).outcome =
      .exited 1 .notFound ∨
    (runAfterBranch b base_directory cwd config env bli).outcome =
      .exited 0 .found := by
  unfold runAfterBranch
  cases env.diff b
  · exact Or.inl ⟨_, rfl⟩
  · dsimp only
    split
    · exact Or.inr (Or.inl rfl)
    · split
      · exact Or.inr (Or.inr (Or.inl rfl))
      · split
        · exact Or.inr (Or.inr (Or.inr (Or.inl rfl)))
        · exact Or.inr (Or.inr (Or.inr (Or.inr rfl)))

/-- C8: when `--compare-with` supplies a branch, the remote-branch listing
is never invoked (so the default-branch priority rule is bypassed) and the
supplied string is used verbatim as the baseline of the three-dot range in
the diff invocation. -/
theorem check_compare_with_bypasses_default (b base_directory cwd : String)
    (config : Config) (env : Env) :
    (main_check (some b) base_directory cwd config env).branchListingInvoked
      = false ∧
    (main_check (some b) base_directory cwd config env).diffArgs =
      some ["git", "diff", "--name-only", b ++ "..."] :=
  runAfterBranch_invocations b base_directory cwd config env false

/-- C10: a fragment `directory` configured as the empty string is treated
exactly like an absent key, because the configuration value is tested for
truthiness: the whole run coincides with the run under an absent key, and
when fragment resolution is reached the search base passed to fragment
discovery is `package_dir/package` with the `newsfragments` subdirectory,
not the empty path. -/
theorem check_empty_directory_fallback (cw : Option String)
    (b base_directory cwd raw : String) (config : Config) (env : Env)
    (bli : Bool) :
    (main_check cw base_directory cwd { config with directory := some "" } env
      = main_check cw base_directory cwd { config with directory := none }
          env) ∧
    (env.diff b = .ok raw → strip raw ≠ "" →
      newsFile base_directory config ∉
        changedFiles base_directory (strip raw) →
      (runAfterBranch b base_directory cwd
          { config with directory := some "" } env bli).fragmentsArgs =
        some (os_path_abspath cwd
            (os_path_join (os_path_join base_directory config.package_dir)
              config.package),
          config.sections, some "newsfragments", config.types)) := by
  constructor
  · rfl
  · intro hok hne hnews
    have hnews' : newsFile base_directory
        { config with directory := some "" } ∉
        changedFiles base_directory (strip raw) := hnews
    unfold runAfterBranch
    rw [hok]
    simp [hne, hnews', fragmentPaths, fragmentSearch, configDirectoryTruthy]
    split <;> rfl

/-- Witness for C10: the demonstration run with `directory = ""` resolves
fragments under `/repo/src/pkg/newsfragments`. -/
theorem check_empty_directory_fallback_witness :
    (main_check (some "origin/main") "/repo" "/repo"
        { cfgDemo with directory := some "" } envFound =
      main_check (some "origin/main") "/repo" "/repo"
        { cfgDemo with directory := none } envFound) ∧
    (runAfterBranch "origin/main" "/repo" "/repo"
        { cfgDemo with directory := some "" } envFound false).fragmentsArgs =
      some ("/repo/src/pkg", [""], some "newsfragments", ["feature"]) := by
  have h := check_empty_directory_fallback (some "origin/main") "origin/main"
    "/repo" "/repo" "src/pkg/newsfragments/123.feature\nsrc/code.py\n"
    cfgDemo envFound false
  exact ⟨h.1, (h.2 rfl (by decide) (by decide)).trans (by decide)⟩

/-- Counterexample to C9 as stated: a failing `git branch -r` invocation
terminates the run abnormally from the branch-listing step, not the diff
step, because `_get_remote_branches` runs outside the `try` block. -/
theorem check_single_abnormal_counterexample :
    (main_check none "/repo" "/repo" cfgDemo envBranchFail).outcome =
      .raisedFrom .branchListing "fatal: not a git repository" ∧
    Step.branchListing ≠ Step.diffStep := by
  decide

/-- C9 (amended): every run that terminates normally exits with status 0 or
1 through exactly one terminal echo-and-exit path; abnormal terminations
are process errors from exactly two places — the uncaught branch-listing
failure (possible only when no `--compare-with` branch was supplied) and
the re-raised diff failure. -/
theorem check_terminal_paths (cw : Option String) (base_directory cwd : String)
    (config : Config) (env : Env) :
    (∀ c t, (main_check cw base_directory cwd config env).outcome =
        .exited c t → c = 0 ∨ c = 1) ∧
    (∀ s out, (main_check cw base_directory cwd config env).outcome =
        .raisedFrom s out →
      (s = .branchListing ∧ cw = none ∧ env.branchListing = .error out) ∨
      s = .diffStep) := by
  have key : ∀ (b : String) (bli : Bool),
      (∀ c t, (runAfterBranch b base_directory cwd config env bli).outcome =
          .exited c t → c = 0 ∨ c = 1) ∧
      (∀ s out, (runAfterBranch b base_directory cwd config env bli).outcome =
          .raisedFrom s out → s = .diffStep) := by
    intro b bli
    rcases runAfterBranch_outcome b base_directory cwd config env bli with
      ⟨out, hx⟩ | hx | hx | hx | hx <;>
      constructor <;> intro c t h <;> simp_all
  cases cw with
  | some b =>
      exact ⟨(key b false).1,
        fun s out h => Or.inr ((key b false).2 s out h)⟩
  | none =>
      cases hbl : env.branchListing with
      | error out0 =>
          constructor
          · intro c t h
            simp [main_check, hbl] at h
          · intro s out h
            simp only [main_check, hbl] at h
            rw [Outcome.raisedFrom.injEq] at h
            obtain ⟨h1, h2⟩ := h
            subst h1
            subst h2
            exact Or.inl ⟨rfl, rfl, rfl⟩
      | ok decoded =>
          cases hdef : (_get_default_compare_branch
              (remoteBranchesOf decoded)).1 with
          | none =>
              constructor
              · intro c t h
                simp [main_check, hbl, hdef] at h
                omega
              · intro s out h
                simp [main_check, hbl, hdef] at h
          | some b =>
              rw [show main_check none base_directory cwd config env =
                  runAfterBranch b base_directory cwd config env true from
                by simp [main_check, hbl, hdef]]
              exact ⟨(key b true).1,
                fun s out h => Or.inr ((key b true).2 s out h)⟩

/-- Witness for C9: the found run exits with an allowed code, and the
failing branch-listing run raises from the branch-listing step. -/
theorem check_terminal_paths_witness :
    ((0 : Nat) = 0 ∨ (0 : Nat) = 1) ∧
    ((Step.branchListing = Step.branchListing ∧ (none : Option String) = none
        ∧ envBranchFail.branchListing = .error "fatal: not a git repository")
      ∨ Step.branchListing = Step.diffStep) :=
  ⟨(check_terminal_paths (some "origin/main") "/repo" "/repo" cfgDemo
      envFound).1 0 .found (by decide),
   (check_terminal_paths none "/repo" "/repo" cfgDemo envBranchFail).2
     .branchListing "fatal: not a git repository" (by decide)⟩

/-- Helper: the component loop distributes over list append. -/
theorem normParts_append (sl : Nat) (xs ys : List String) :
    normParts sl (xs ++ ys) = ys.foldl (normStep sl) (normParts sl xs) :=
  List.foldl_append ..

/-- Helper: an empty component (a redundant separator) is skipped. -/
theorem normStep_empty (sl : Nat) (acc : List String) :
    normStep sl acc "" = acc := by
  simp [normStep]

/-- Helper: a `.` component is skipped. -/
theorem normStep_dot (sl : Nat) (acc : List String) :
    normStep sl acc "." = acc := by
  simp [normStep]

/-- Helper: an ordinary component is appended. -/
theorem normStep_regular (sl : Nat) (acc : List String) (c : String)
    (h1 : c ≠ "") (h2 : c ≠ ".") (h3 : c ≠ "..") :
    normStep sl acc c = acc ++ [c] := by
  simp [normStep, h1, h2, h3]

/-- Helper: a `..` component cancels a preceding ordinary component. -/
theorem normStep_dotdot_cancel (sl : Nat) (acc : List String) (c : String)
    (h3 : c ≠ "..") :
    normStep sl (acc ++ [c]) ".." = acc := by
  simp [normStep, List.getLast?_concat, h3, List.dropLast_concat]

/-- C7: path normalization is consistent between the changed-file set and
the fragment path set.  At the component level of `normpath` (both sides
of the intersection normalize through the same `normParts` loop), inserting
a redundant separator (an empty component), a `.` component, or an
ordinary component followed by `..` anywhere in a path leaves the
normalized form unchanged; consequently paths that differ only by such
segments denote the same element and intersect identically in the
fragment-matching step. -/
theorem check_normalization_consistent (sl : Nat) (xs ys : List String)
    (c : String) (h1 : c ≠ "") (h2 : c ≠ ".") (h3 : c ≠ "..") :
    (normParts sl (xs ++ "" :: ys) = normParts sl (xs ++ ys)) ∧
    (normParts sl (xs ++ "." :: ys) = normParts sl (xs ++ ys)) ∧
    (normParts sl (xs ++ c :: ".." :: ys) = normParts sl (xs ++ ys)) ∧
    (∀ (fragments files : List String) (p q : String),
      normpath p = normpath q →
      (normpath p ∈ fragments.filter (fun x => decide (x ∈ files)) ↔
       normpath q ∈ fragments.filter (fun x => decide (x ∈ files)))) := by
  refine ⟨?_, ?_, ?_, ?_⟩
  · rw [show xs ++ "" :: ys = (xs ++ [""]) ++ ys by simp,
      normParts_append sl (xs ++ [""]) ys, normParts_append sl xs ys,
      normParts_append sl xs [""]]
    simp [normStep_empty]
  · rw [show xs ++ "." :: ys = (xs ++ ["."]) ++ ys by simp,
      normParts_append sl (xs ++ ["."]) ys, normParts_append sl xs ys,
      normParts_append sl xs ["."]]
    simp [normStep_dot]
  · rw [show xs ++ c :: ".." :: ys = (xs ++ [c, ".."]) ++ ys by simp,
      normParts_append sl (xs ++ [c, ".."]) ys, normParts_append sl xs ys,
      normParts_append sl xs [c, ".."]]
    simp [normStep_regular sl _ c h1 h2 h3, normStep_dotdot_cancel sl _ c h3]
  · intro fragments files p q h
    rw [h]

/-- Witness for C7: the component sequences of `a//b`, `a/./b`, `a/x/../b`
and `a/b` all normalize to the same components, and the normalized paths
`normpath "a//b"` and `normpath "a/b"` are interchangeable in an
intersection membership test. -/
theorem check_normalization_consistent_witness :
    (normParts 0 (["a"] ++ "" :: ["b"]) = normParts 0 (["a"] ++ ["b"])) ∧
    (normParts 0 (["a"] ++ "." :: ["b"]) = normParts 0 (["a"] ++ ["b"])) ∧
    (normParts 0 (["a"] ++ "x" :: ".." :: ["b"]) =
      normParts 0 (["a"] ++ ["b"])) ∧
    (normpath "a//b" ∈ ["a/b"].filter (fun x => decide (x ∈ ["a/b", "c"])) ↔
     normpath "a/b" ∈ ["a/b"].filter (fun x => decide (x ∈ ["a/b", "c"]))) :=
  ⟨(check_normalization_consistent 0 ["a"] ["b"] "x" (by decide) (by decide)
      (by decide)).1,
   (check_normalization_consistent 0 ["a"] ["b"] "x" (by decide) (by decide)
      (by decide)).2.1,
   (check_normalization_consistent 0 ["a"] ["b"] "x" (by decide) (by decide)
      (by decide)).2.2.1,
   (check_normalization_consistent 0 ["a"] ["b"] "x" (by decide) (by decide)
      (by decide)).2.2.2 ["a/b"] ["a/b", "c"] "a//b" "a/b" (by decide)⟩

end Towncrier
